import Mathlib

/-!
Verification development for the openkcm identity-management-plugins
repository.  The Go sources are shallowly embedded: pure helpers become
Lean functions, the SCIM HTTP client is modelled as an oracle supplying
the decoded responses, Go errors become an inductive type with an
explicit wrapping structure mirroring the fmt.Errorf / errs.Wrap chains,
and Go slices become Option (List a) so that the nil slice is
distinguishable from the empty one.
-/

/-- Model of Go error values produced by the repository.  Named leaf
constructors correspond to the package-level sentinel errors; `wrap`
models errs.Wrap (fmt.Errorf with two verbs chaining both errors),
`withSuffix` models fmt.Errorf of a wrapped error followed by plain
text, and `invalidResponse` models the decode helper message
"invalid response from api: cause". -/
inductive GoError where
  | errNoScimClient
  | errGetGroupPlugin
  | errGetAllGroups
  | errGetGroupNonExistent
  | errGetGroupMultipleGroups
  | errGetGroupsForUser
  | errGetUsersForGroup
  | errNoID
  | errGetUser
  | errListUsers
  | errGetGroup
  | errListGroups
  | errAuthNotImplemented
  | errHttpCreation
  | errClientID
  | errClientSecret
  | errParsingClientCertificate
  | errUnexpectedStatusCode
  | errNoFilter
  | errMarshallFail
  | jsonDecodeError
  | otherError (msg : String)
  | wrap (base ext : GoError)
  | withSuffix (base : GoError) (text : String)
  | invalidResponse (api : String) (cause : GoError)
deriving DecidableEq, Repr

/-- Model of errors.Is: walks the wrapping chain produced by the
fmt.Errorf patterns used in the repository and reports whether the
target error value appears anywhere in it. -/
def errorIs : GoError → GoError → Bool
  | e, target =>
    if e = target then true
    else
      match e with
      | .wrap base ext => errorIs base target || errorIs ext target
      | .withSuffix base _ => errorIs base target
      | .invalidResponse _ cause => errorIs cause target
      | _ => false

namespace scim

/-- Closed enumeration of SCIM filter operators (pkg/clients/scim/filter.go,
plus the greater-than operator used by the plugin for the synthetic
all-resources filter). -/
inductive FilterOperator where
  | eq
  | eqCI
  | ne
  | co
  | sw
  | ew
  | gt
deriving DecidableEq, Repr

/-- Wire spelling of each filter operator, as in the Go string constants. -/
def FilterOperator.value : FilterOperator → String
  | .eq => "eq"
  | .eqCI => "eq_ci"
  | .ne => "ne"
  | .co => "co"
  | .sw => "sw"
  | .ew => "ew"
  | .gt => "gt"

/-- Filter-expression trees of pkg/clients/scim/filter.go.  The Go
interface with its NullFilterExpression, FilterComparison,
FilterLogicalGroupAnd, FilterLogicalGroupOr and FilterLogicalGroupNot
implementations becomes one inductive type. -/
inductive FilterExpression where
  | nullFilter
  | comparison (attrName : String) (operator : FilterOperator) (value : String)
  | andGroup (expressions : List FilterExpression)
  | orGroup (expressions : List FilterExpression)
  | notGroup (expression : FilterExpression)

/-- Model of the Go idiom filter == NullFilterExpression, which tests for
the null variant (the struct is empty, so interface equality is exactly a
dynamic type test). -/
def isNullFilter : FilterExpression → Bool
  | .nullFilter => true
  | _ => false

mutual

/-- ToString of filter.go: comparisons print attribute, operator and the
double-quoted value; and/or groups print the parenthesized list of child
strings joined by " and " / " or " (strings.Join); not prepends "not ". -/
def FilterExpression.ToString : FilterExpression → String
  | .nullFilter => ""
  | .comparison attrName operator value =>
      attrName ++ " " ++ operator.value ++ " \"" ++ value ++ "\""
  | .andGroup expressions =>
      "(" ++ String.intercalate " and " (exprStrings expressions) ++ ")"
  | .orGroup expressions =>
      "(" ++ String.intercalate " or " (exprStrings expressions) ++ ")"
  | .notGroup expression => "not " ++ expression.ToString

/-- The loop of filter.go collecting exprStrings[i] = expr.ToString(). -/
def exprStrings : List FilterExpression → List String
  | [] => []
  | e :: rest => e.ToString :: exprStrings rest

end

end scim

namespace filterspec

/-- Separator join written directly from the words of the spec: children
joined with the literal separator text. -/
def joinSep (sep : String) : List String → String
  | [] => ""
  | [s] => s
  | s :: t :: rest => s ++ sep ++ joinSep sep (t :: rest)

/-- Reference serialization written from the words of the specification:
a comparison serializes to attribute operator double-quoted-value, a
group to the parenthesized " and "/" or "-joined child strings (a single
child still parenthesized), not to "not " plus the child, null to "". -/
def refToString : scim.FilterExpression → String
  | .nullFilter => ""
  | .comparison attrName operator value =>
      attrName ++ " " ++ operator.value ++ " \"" ++ value ++ "\""
  | .andGroup expressions =>
      "(" ++ joinSep " and " (expressions.attach.map (fun e => refToString e.val)) ++ ")"
  | .orGroup expressions =>
      "(" ++ joinSep " or " (expressions.attach.map (fun e => refToString e.val)) ++ ")"
  | .notGroup expression => "not " ++ refToString expression
decreasing_by
  all_goals simp_wf
  all_goals obtain ⟨e1, he⟩ := e
  all_goals have := List.sizeOf_lt_of_mem he
  all_goals simp at *
  all_goals omega

end filterspec

/-- Tail of a separator-joined string: the separator-prefixed remainder
after the first element. -/
def sepTail (sep : String) : List String → String
  | [] => ""
  | s :: rest => sep ++ s ++ sepTail sep rest

namespace scim

/-- BaseResource of the SCIM wire model (types file). -/
structure BaseResource where
  id : String := ""
  externalID : String := ""
  schemas : List String := []
deriving DecidableEq, Repr

/-- MultiValuedAttribute of the SCIM wire model, used for emails, group
memberships and group members. -/
structure MultiValuedAttribute where
  primary : Bool := false
  display : String := ""
  value : String := ""
deriving DecidableEq, Repr

/-- SCIM User resource. -/
structure User extends BaseResource where
  userName : String := ""
  displayName : String := ""
  active : Bool := false
  emails : List MultiValuedAttribute := []
  groups : List MultiValuedAttribute := []
  userType : String := ""
deriving DecidableEq, Repr

/-- SCIM Group resource. -/
structure Group extends BaseResource where
  displayName : String := ""
  members : List MultiValuedAttribute := []
deriving DecidableEq, Repr

/-- SCIM list envelope for users. -/
structure UserList where
  resources : List User := []
deriving DecidableEq, Repr

/-- SCIM list envelope for groups. -/
structure GroupList where
  resources : List Group := []
deriving DecidableEq, Repr

/-- SearchRequest body of the POST .search variant. -/
structure SearchRequest where
  schemas : List String
  filter : Option String := none
  count : Option Int := none
  cursor : Option String := none
deriving DecidableEq, Repr

/-- Fixed search-request schema URN (connect.go). -/
def SearchRequestSchema : String := "urn:ietf:params:scim:api:messages:2.0:SearchRequest"

/-- SCIM media type (connect.go). -/
def ApplicationSCIMJson : String := "application/scim+json"

end scim

namespace goenc

/-- UTF-8 encoding of one code point, as a list of byte values.  Model of
the Go string byte representation used by the net/url and
encoding/base64 standard packages. -/
def utf8EncodeCharNat (n : Nat) : List Nat :=
  if n < 128 then [n]
  else if n < 2048 then [192 + n / 64, 128 + n % 64]
  else if n < 65536 then [224 + n / 4096, 128 + n / 64 % 64, 128 + n % 64]
  else [240 + n / 262144, 128 + n / 4096 % 64, 128 + n / 64 % 64, 128 + n % 64]

/-- Byte values of the UTF-8 encoding of a string. -/
def utf8Bytes (s : String) : List Nat :=
  s.data.foldr (fun c acc => utf8EncodeCharNat c.toNat ++ acc) []

/-- Upper-case hexadecimal digit, as used by Go percent-encoding. -/
def hexDigit (n : Nat) : Char :=
  "0123456789ABCDEF".data.getD n "0".data.head!

/-- Model of Go url.QueryEscape unreserved bytes: alphanumerics and the
four marks dash, underscore, dot, tilde stay unescaped. -/
def isUnreservedQueryByte (b : Nat) : Bool :=
  (65 ≤ b && b ≤ 90) || (97 ≤ b && b ≤ 122) || (48 ≤ b && b ≤ 57) ||
    b = 45 || b = 95 || b = 46 || b = 126

/-- Model of Go url.QueryEscape: space becomes plus, unreserved bytes stay,
every other byte becomes a percent-escaped upper-case hex pair. -/
def queryEscape (s : String) : String :=
  String.mk ((utf8Bytes s).foldr
    (fun b acc =>
      if b = 32 then "+".data.head! :: acc
      else if isUnreservedQueryByte b then Char.ofNat b :: acc
      else "%".data.head! :: hexDigit (b / 16) :: hexDigit (b % 16) :: acc)
    [])

/-- Stable insertion of one key-value pair into a key-sorted list, used to
model the key sorting performed by Go url.Values.Encode. -/
def insertByKey (p : String × String) : List (String × String) → List (String × String)
  | [] => [p]
  | q :: rest => if p.1 < q.1 then p :: q :: rest else q :: insertByKey p rest

/-- Key-sorting of an association list (insertion sort, stable). -/
def sortByKey : List (String × String) → List (String × String)
  | [] => []
  | p :: rest => insertByKey p (sortByKey rest)

/-- Model of Go url.Values.Encode for the distinct-key association lists
built by this repository: sort by key, escape key and value, join the
key=value pairs with ampersands. -/
def valuesEncode (vs : List (String × String)) : String :=
  String.intercalate "&"
    ((sortByKey vs).map (fun kv => queryEscape kv.1 ++ "=" ++ queryEscape kv.2))

/-- Base64 alphabet of the Go standard encoding. -/
def base64Alphabet : List Char :=
  "ABCDEFGHIJKLMNOPQRSTUVWXYZabcdefghijklmnopqrstuvwxyz0123456789+/".data

/-- Six-bit groups of a byte list, the core of base64 encoding. -/
def b64Groups : List Nat → List Nat
  | [] => []
  | [a] => [a / 4, a % 4 * 16]
  | [a, b] => [a / 4, a % 4 * 16 + b / 16, b % 16 * 4]
  | a :: b :: c :: rest =>
      a / 4 :: (a % 4 * 16 + b / 16) :: (b % 16 * 4 + c / 64) :: c % 64 ::
        b64Groups rest

/-- Model of Go base64.RawStdEncoding.EncodeToString: standard alphabet,
no padding. -/
def base64RawStd (bytes : List Nat) : String :=
  String.mk ((b64Groups bytes).map (fun g => base64Alphabet.getD g "A".data.head!))

end goenc

namespace scim

/-- Request-builder of the scim package: builds the POST SearchRequest
body.  The filter argument is an Option, none standing for a Go nil
interface value.  A nil or null filter is rejected with the no-filter
error; otherwise the serialized filter string is set.  json.Marshal of
this fixed shape cannot fail, so the body is modelled as the
SearchRequest value itself. -/
def buildBodyFromParams (filter : Option FilterExpression) (count : Option Int)
    (cursor : Option String) : Except GoError SearchRequest :=
  let searchRequest : SearchRequest :=
    { schemas := [SearchRequestSchema], count := count, cursor := cursor }
  match filter with
  | none => .error .errNoFilter
  | some f =>
    if isNullFilter f then .error .errNoFilter
    else .ok { searchRequest with filter := some f.ToString }

/-- Query values assembled by buildQueryStringFromParams, in Add order:
cursor, then count (strconv.Itoa), then the filter string when the
filter is neither nil nor null. -/
def queryValuesFromParams (filter : Option FilterExpression) (cursor : Option String)
    (count : Option Int) : List (String × String) :=
  let query : List (String × String) := []
  let query := match cursor with
    | some c => query ++ [("cursor", c)]
    | none => query
  let query := match count with
    | some n => query ++ [("count", toString n)]
    | none => query
  match filter with
  | some f => if isNullFilter f then query else query ++ [("filter", f.ToString)]
  | none => query

/-- Request-builder of the scim package: builds the GET query string by
encoding the assembled url.Values. -/
def buildQueryStringFromParams (filter : Option FilterExpression)
    (cursor : Option String) (count : Option Int) : String :=
  goenc.valuesEncode (queryValuesFromParams filter cursor count)

end scim

namespace commoncfg

/-- Model of the external secret loader source reference: an embedded
literal value, or a reference the loader fails to resolve. -/
inductive SourceRef where
  | embedded (value : String)
  | unresolvable
deriving DecidableEq, Repr

/-- Model of commoncfg.LoadValueFromSourceRef: embedded values load as
their literal bytes, unresolvable references fail. -/
def LoadValueFromSourceRef : SourceRef → Except GoError String
  | .embedded v => .ok v
  | .unresolvable => .error (.otherError "failed to load value from source ref")

/-- Basic credential pair of the external configuration model. -/
structure BasicAuth where
  username : SourceRef
  password : SourceRef
deriving DecidableEq, Repr

/-- Model of the mTLS material of the external configuration model, only
recording whether commoncfg.LoadMTLSConfig succeeds on it. -/
structure MTLS where
  parseable : Bool
deriving DecidableEq, Repr

/-- Model of commoncfg.LoadMTLSConfig. -/
def LoadMTLSConfig (m : MTLS) : Except GoError Unit :=
  if m.parseable then .ok () else .error (.otherError "bad x509 key pair")

/-- Auth type tag constants of the external configuration model. -/
def BasicSecretType : String := "basic"

/-- MTLS auth type tag. -/
def MTLSSecretType : String := "mtls"

/-- OAuth2 auth type tag (not implemented by the SCIM client). -/
def OAuth2SecretType : String := "oauth2"

/-- Secret reference with a type tag selecting the auth mode. -/
structure SecretRef where
  type : String
  basic : BasicAuth := ⟨.embedded "", .embedded ""⟩
  mtls : MTLS := ⟨false⟩
deriving DecidableEq, Repr

end commoncfg

namespace scim

/-- Stored basic-auth credentials of a constructed client. -/
structure BasicCreds where
  clientID : String
  clientSecret : String
deriving DecidableEq, Repr

/-- Constructed SCIM client state: host, and the basic credentials when
basic auth was selected (absent in mTLS mode, where the certificate
lives in the transport). -/
structure Client where
  host : String
  basicAuth : Option BasicCreds
  hasTLSTransport : Bool
deriving DecidableEq, Repr

/-- NewClient of pkg/clients/scim/connect.go: switches on the auth type;
basic auth loads client id and secret (failures map to the client-id /
client-secret errors), mTLS loads the certificate material, every other
type is rejected with the not-implemented error. -/
def NewClient (host : String) (auth : commoncfg.SecretRef) : Except GoError Client :=
  if auth.type = commoncfg.BasicSecretType then
    match commoncfg.LoadValueFromSourceRef auth.basic.username with
    | .error _ => .error .errClientID
    | .ok clientId =>
      match commoncfg.LoadValueFromSourceRef auth.basic.password with
      | .error _ => .error .errClientSecret
      | .ok clientSecret =>
        .ok { host := host,
              basicAuth := some ⟨clientId, clientSecret⟩,
              hasTLSTransport := false }
  else if auth.type = commoncfg.MTLSSecretType then
    match commoncfg.LoadMTLSConfig auth.mtls with
    | .error e => .error (.wrap .errParsingClientCertificate e)
    | .ok _ => .ok { host := host, basicAuth := none, hasTLSTransport := true }
  else .error .errAuthNotImplemented

end scim

namespace httpclient

/-- Decoded view of an HTTP response carrying a body that either parses
into the target type (some) or is malformed JSON (none). -/
structure HResponse (α : Type) where
  statusCode : Nat
  status : String
  body : Option α
deriving DecidableEq, Repr

/-- DecodeResponse of pkg/utils/httpclient: on the expected status the
body is JSON-decoded (a decode failure becomes the json error), any
other status becomes the unexpected-status error carrying the status
text; either failure is wrapped in the invalid-response message naming
the API. -/
def DecodeResponse {α : Type} (apiName : String) (resp : HResponse α)
    (expectedStatus : Nat) : Except GoError α :=
  if resp.statusCode = expectedStatus then
    match resp.body with
    | some result => .ok result
    | none => .error (.invalidResponse apiName .jsonDecodeError)
  else
    .error (.invalidResponse apiName (.withSuffix .errUnexpectedStatusCode resp.status))

end httpclient

namespace http

/-- HTTP method constant. -/
def MethodGet : String := "GET"

/-- HTTP method constant. -/
def MethodPost : String := "POST"

/-- HTTP method constant. -/
def MethodPut : String := "PUT"

/-- HTTP method constant. -/
def MethodPatch : String := "PATCH"

/-- HTTP OK status code. -/
def StatusOK : Nat := 200

end http

namespace scim

/-- Client.GetUser of connect.go as a function of the outcome of the
HTTP exchange: a transport error or a decode failure is wrapped under
the get-user marker, a decoded user is returned as is. -/
def GetUserResult (exchange : Except GoError (httpclient.HResponse User)) :
    Except GoError User :=
  match exchange with
  | .error e => .error (.wrap .errGetUser e)
  | .ok resp =>
    match httpclient.DecodeResponse "SCIM" resp http.StatusOK with
    | .error e => .error (.wrap .errGetUser e)
    | .ok user => .ok user

/-- Client.ListUsers of connect.go as a function of the exchange outcome. -/
def ListUsersResult (exchange : Except GoError (httpclient.HResponse UserList)) :
    Except GoError UserList :=
  match exchange with
  | .error e => .error (.wrap .errListUsers e)
  | .ok resp =>
    match httpclient.DecodeResponse "SCIM" resp http.StatusOK with
    | .error e => .error (.wrap .errListUsers e)
    | .ok users => .ok users

/-- Client.GetGroup of connect.go as a function of the exchange outcome. -/
def GetGroupResult (exchange : Except GoError (httpclient.HResponse Group)) :
    Except GoError Group :=
  match exchange with
  | .error e => .error (.wrap .errGetGroup e)
  | .ok resp =>
    match httpclient.DecodeResponse "SCIM" resp http.StatusOK with
    | .error e => .error (.wrap .errGetGroup e)
    | .ok group => .ok group

/-- Client.ListGroups of connect.go as a function of the exchange outcome. -/
def ListGroupsResult (exchange : Except GoError (httpclient.HResponse GroupList)) :
    Except GoError GroupList :=
  match exchange with
  | .error e => .error (.wrap .errListGroups e)
  | .ok resp =>
    match httpclient.DecodeResponse "SCIM" resp http.StatusOK with
    | .error e => .error (.wrap .errListGroups e)
    | .ok groups => .ok groups

/-- Outgoing request view: method plus headers. -/
structure Request where
  method : String
  headers : List (String × String)
deriving DecidableEq, Repr

/-- Model of net/http Header.Set: replaces every existing value of the
key with the single new value (appended at the end). -/
def headerSet : List (String × String) → String → String → List (String × String)
  | [], key, val => [(key, val)]
  | kv :: rest, key, val =>
    if kv.1 = key then headerSet rest key val
    else kv :: headerSet rest key val

/-- Model of net/http Header.Get: the first value stored for the key. -/
def headerGet : List (String × String) → String → Option String
  | [], _ => none
  | kv :: rest, key => if kv.1 = key then some kv.2 else headerGet rest key

/-- Authorization header name constant of connect.go. -/
def HeaderAuthorization : String := "Authorization"

/-- Header mutations of Client.doRequest in connect.go: write-capable
methods get the SCIM content type, every request gets the SCIM accept
header, and in basic-auth mode the Authorization header is set to the
word Basic followed by the unpadded standard base64 encoding of
clientID colon clientSecret. -/
def Client.doRequest (c : Client) (req : Request) : Request :=
  let req :=
    if req.method = http.MethodPost ∨ req.method = http.MethodPut ∨
        req.method = http.MethodPatch then
      { req with headers := headerSet req.headers "Content-Type" ApplicationSCIMJson }
    else req
  let req := { req with headers := headerSet req.headers "Accept" ApplicationSCIMJson }
  match c.basicAuth with
  | some creds =>
    { req with
      headers := headerSet req.headers HeaderAuthorization
        ("Basic " ++ goenc.base64RawStd
          (goenc.utf8Bytes (creds.clientID ++ ":" ++ creds.clientSecret))) }
  | none => req

end scim

/-- Go slice model: none is the nil slice, some is a non-nil slice with
its elements. -/
abbrev GoSlice (α : Type) := Option (List α)

/-- Model of Go append on a slice (append to nil yields a non-nil slice). -/
def goAppend {α : Type} (s : GoSlice α) (a : α) : GoSlice α :=
  some (s.getD [] ++ [a])

namespace idmangv1

/-- Host-facing user projection of the plugin proto. -/
structure User where
  id : String := ""
  name : String := ""
  email : String := ""
deriving DecidableEq, Repr

/-- Host-facing group projection of the plugin proto. -/
structure Group where
  id : String := ""
  name : String := ""
deriving DecidableEq, Repr

/-- GetGroup response message. -/
structure GetGroupResponse where
  group : Group
deriving DecidableEq, Repr

/-- GetAllGroups response message. -/
structure GetAllGroupsResponse where
  groups : GoSlice Group
deriving DecidableEq, Repr

/-- GetUsersForGroup response message. -/
structure GetUsersForGroupResponse where
  users : GoSlice User
deriving DecidableEq, Repr

/-- GetGroupsForUser response message. -/
structure GetGroupsForUserResponse where
  groups : GoSlice Group
deriving DecidableEq, Repr

end idmangv1

namespace plugin

/-- Resolved plugin parameters (internal/plugin/scim, Params). -/
structure Params where
  groupAttribute : String := ""
  userAttribute : String := ""
  groupMembersAttribute : String := ""
  listMethod : String := ""
  allowSearchUsersByGroup : Bool := false
deriving DecidableEq, Repr

/-- Oracle view of the SCIM client used by the plugin: each operation is
a function from its arguments to the decoded result the client would
deliver. -/
structure ScimClientModel where
  listGroups : String → scim.FilterExpression → Option String → Option Int →
    Except GoError scim.GroupList
  listUsers : String → scim.FilterExpression → Option String → Option Int →
    Except GoError scim.UserList
  getGroup : String → String → Except GoError scim.Group
  getUser : String → Except GoError scim.User

/-- Plugin state: the SCIM client is absent until Configure succeeds. -/
structure Plugin where
  scimClient : Option ScimClientModel
  params : Params

/-- One SCIM client invocation, recorded so that theorems can speak about
which calls an operation issues and in which order. -/
inductive ClientCall where
  | listGroupsCall (method : String) (filter : scim.FilterExpression)
      (cursor : Option String) (count : Option Int)
  | listUsersCall (method : String) (filter : scim.FilterExpression)
      (cursor : Option String) (count : Option Int)
  | getGroupCall (id attributes : String)
  | getUserCall (id : String)

/-- Outcome of a plugin operation: a response, a Go error, or a nil
pointer dereference (Go run-time panic). -/
inductive POutcome (α : Type) where
  | ok (val : α)
  | fail (e : GoError)
  | nilPanic
deriving DecidableEq, Repr

/-- Default list method (POST) of the plugin. -/
def defaultListMethod : String := http.MethodPost

/-- Default attribute for filtering users by group membership. -/
def defaultUserListAttribute : String := "groups.display"

/-- Default attribute for filtering groups by name. -/
def defaultGroupsFilterAttribute : String := "displayName"

/-- Attribute compared against the epoch in the all-resources filter. -/
def modifiedByAttribute : String := "meta.lastModified"

/-- Synthetic always-true filter used by GetAllGroups: last-modified
greater than the RFC3339 rendering of the Unix epoch. -/
def allFilter : scim.FilterExpression :=
  .comparison modifiedByAttribute .gt "1970-01-01T00:00:00Z"

/-- getListMethod of the plugin: the configured method, defaulting to POST. -/
def Plugin.getListMethod (p : Plugin) : String :=
  if p.params.listMethod ≠ "" then p.params.listMethod else defaultListMethod

/-- getFilter of the plugin: an empty value yields the null filter,
otherwise an equality comparison on the configured attribute, falling
back to the given default attribute. -/
def getFilter (defaultAttribute value setAttribute : String) :
    scim.FilterExpression :=
  if value = "" then .nullFilter
  else
    let attr := if setAttribute ≠ "" then setAttribute else defaultAttribute
    .comparison attr .eq value

/-- Loop of getPrimaryEmailAddress: the value of the first email flagged
primary, if any. -/
def firstPrimaryValue : List scim.MultiValuedAttribute → Option String
  | [] => none
  | email :: rest =>
    if email.primary then some email.value else firstPrimaryValue rest

/-- getPrimaryEmailAddress of the plugin: first primary email value,
falling back to the first email, then to the empty string. -/
def getPrimaryEmailAddress (user : scim.User) : String :=
  match firstPrimaryValue user.emails with
  | some v => v
  | none =>
    match user.emails with
    | [] => ""
    | email :: _ => email.value

/-- listGroups helper of the plugin: rejects the null filter with the
no-id error, otherwise lists groups through the client and projects
them into the host-facing shape. -/
def Plugin.listGroupsM (p : Plugin) (c : ScimClientModel)
    (filter : scim.FilterExpression) :
    Except GoError (GoSlice idmangv1.Group) × List ClientCall :=
  if scim.isNullFilter filter then (.error .errNoID, [])
  else
    match c.listGroups p.getListMethod filter none none with
    | .error e => (.error e, [.listGroupsCall p.getListMethod filter none none])
    | .ok groups =>
      (.ok (some (groups.resources.map
          (fun group => { id := group.id, name := group.displayName }))),
       [.listGroupsCall p.getListMethod filter none none])

/-- getUsersForGroupUsingUserList of the plugin: requires a configured
group attribute, filters users by it and projects the result. -/
def Plugin.getUsersForGroupUsingUserList (p : Plugin) (c : ScimClientModel)
    (groupID : String) :
    Except GoError (GoSlice idmangv1.User) × List ClientCall :=
  let responseUsers : GoSlice idmangv1.User := some []
  let attr := p.params.groupAttribute
  if attr = "" then
    (.error (.wrap .errGetUsersForGroup
      (.otherError "no group attribute configured")), [])
  else
    let filter := getFilter defaultUserListAttribute groupID attr
    match c.listUsers p.getListMethod filter none none with
    | .error e =>
      (.error (.wrap .errGetUsersForGroup e),
       [.listUsersCall p.getListMethod filter none none])
    | .ok users =>
      (.ok (users.resources.foldl
          (fun acc user => goAppend acc
            { id := user.id, name := user.userName,
              email := getPrimaryEmailAddress user }) responseUsers),
       [.listUsersCall p.getListMethod filter none none])

/-- Member loop of getUsersForGroupUsingGroupMembers: one GetUser call
per member value, in order, aborting on the first failure. -/
def membersLoop (c : ScimClientModel) :
    List scim.MultiValuedAttribute → GoSlice idmangv1.User →
    Except GoError (GoSlice idmangv1.User) × List ClientCall
  | [], acc => (.ok acc, [])
  | member :: rest, acc =>
    match c.getUser member.value with
    | .error e =>
      (.error (.wrap .errGetUsersForGroup e), [.getUserCall member.value])
    | .ok user =>
      let r := membersLoop c rest (goAppend acc
        { id := user.id, name := user.userName,
          email := getPrimaryEmailAddress user })
      (r.1, .getUserCall member.value :: r.2)

/-- getUsersForGroupUsingGroupMembers of the plugin: fetch the group,
then fetch each member by id. -/
def Plugin.getUsersForGroupUsingGroupMembers (p : Plugin) (c : ScimClientModel)
    (groupID : String) :
    Except GoError (GoSlice idmangv1.User) × List ClientCall :=
  match c.getGroup groupID p.params.groupMembersAttribute with
  | .error e =>
    (.error (.wrap .errGetUsersForGroup e),
     [.getGroupCall groupID p.params.groupMembersAttribute])
  | .ok group =>
    let r := membersLoop c group.members (some [])
    (r.1, .getGroupCall groupID p.params.groupMembersAttribute :: r.2)

/-- GetGroup operation of the plugin. -/
def Plugin.GetGroup (p : Plugin) (groupName : String) :
    POutcome idmangv1.GetGroupResponse × List ClientCall :=
  match p.scimClient with
  | none => (.fail .errNoScimClient, [])
  | some c =>
    let attr := p.params.groupAttribute
    let filter := getFilter defaultGroupsFilterAttribute groupName attr
    match p.listGroupsM c filter with
    | (.error e, calls) => (.fail (.wrap .errGetGroupPlugin e), calls)
    | (.ok responseGroups, calls) =>
      match responseGroups.getD [] with
      | [] => (.fail (.wrap .errGetGroupPlugin .errGetGroupNonExistent), calls)
      | [g] => (.ok { group := g }, calls)
      | _ :: _ :: _ =>
        (.fail (.wrap .errGetGroupPlugin .errGetGroupMultipleGroups), calls)

/-- GetAllGroups operation of the plugin.  The source performs no
nil-client check here, so an unconfigured plugin dereferences the nil
client pointer: modelled as the panic outcome. -/
def Plugin.GetAllGroups (p : Plugin) :
    POutcome idmangv1.GetAllGroupsResponse × List ClientCall :=
  match p.scimClient with
  | none => (.nilPanic, [])
  | some c =>
    match c.listGroups p.getListMethod allFilter none none with
    | .error e =>
      (.fail (.wrap .errGetAllGroups e),
       [.listGroupsCall p.getListMethod allFilter none none])
    | .ok groups =>
      (.ok { groups := some (groups.resources.map
          (fun group => { id := group.id, name := group.displayName })) },
       [.listGroupsCall p.getListMethod allFilter none none])

/-- GetUsersForGroup operation of the plugin: blank id fails fast, then
one of the two strategies runs depending on allowSearchUsersByGroup. -/
def Plugin.GetUsersForGroup (p : Plugin) (groupID : String) :
    POutcome idmangv1.GetUsersForGroupResponse × List ClientCall :=
  match p.scimClient with
  | none => (.fail .errNoScimClient, [])
  | some c =>
    if groupID = "" then (.fail (.wrap .errGetUsersForGroup .errNoID), [])
    else
      let r :=
        if p.params.allowSearchUsersByGroup then
          p.getUsersForGroupUsingUserList c groupID
        else
          p.getUsersForGroupUsingGroupMembers c groupID
      match r with
      | (.error e, calls) => (.fail (.wrap .errGetUsersForGroup e), calls)
      | (.ok responseUsers, calls) => (.ok { users := responseUsers }, calls)

/-- GetGroupsForUser operation of the plugin. -/
def Plugin.GetGroupsForUser (p : Plugin) (userId : String) :
    POutcome idmangv1.GetGroupsForUserResponse × List ClientCall :=
  match p.scimClient with
  | none => (.fail .errNoScimClient, [])
  | some c =>
    let attr := p.params.userAttribute
    let filter := getFilter defaultUserListAttribute userId attr
    match p.listGroupsM c filter with
    | (.error e, calls) => (.fail (.wrap .errGetGroupsForUser e), calls)
    | (.ok responseGroups, calls) => (.ok { groups := responseGroups }, calls)

end plugin

namespace fixtures

/-- User with a primary email (second in the list). -/
def primaryUser : scim.User :=
  { userName := "alice",
    emails := [{ value := "first@x" }, { primary := true, value := "p@x" }] }

/-- User with two emails, none primary. -/
def noPrimaryUser : scim.User :=
  { userName := "bob",
    emails := [{ value := "first@y" }, { value := "second@y" }] }

/-- User with no emails. -/
def noEmailUser : scim.User := { userName := "carol" }

end fixtures

namespace plugin

/-- Host-facing projection of a SCIM user, as assembled inline by both
group-membership strategies. -/
def projUser (u : scim.User) : idmangv1.User :=
  { id := u.id, name := u.userName, email := getPrimaryEmailAddress u }

end plugin

namespace fixtures

/-- Concrete group used by witnesses. -/
def kGroup : scim.Group :=
  { id := "g1", displayName := "KeyAdmin",
    members := [{ value := "u1" }, { value := "u2" }] }

/-- Oracle client whose group listing always reports exactly one group. -/
def oneGroupClient : plugin.ScimClientModel :=
  { listGroups := fun _ _ _ _ => .ok { resources := [kGroup] },
    listUsers := fun _ _ _ _ => .error (.otherError "unused"),
    getGroup := fun _ _ => .error (.otherError "unused"),
    getUser := fun _ => .error (.otherError "unused") }

/-- Configured plugin with default parameters over the one-group client. -/
def configuredPlugin : plugin.Plugin :=
  { scimClient := some oneGroupClient, params := {} }

/-- Plugin that never saw a successful Configure. -/
def noClientPlugin : plugin.Plugin := { scimClient := none, params := {} }

/-- Oracle client whose listings report zero resources. -/
def emptyListClient : plugin.ScimClientModel :=
  { listGroups := fun _ _ _ _ => .ok { resources := [] },
    listUsers := fun _ _ _ _ => .ok { resources := [] },
    getGroup := fun _ _ => .error (.otherError "unused"),
    getUser := fun _ => .error (.otherError "unused") }

/-- Plugin in direct-search mode over the empty-list client. -/
def directSearchPlugin : plugin.Plugin :=
  { scimClient := some emptyListClient,
    params := { groupAttribute := "groups.display",
                allowSearchUsersByGroup := true } }

/-- Deterministic user record per id, used by the traversal witnesses. -/
def memberUser (id : String) : scim.User :=
  { id := id, userName := "name-" ++ id }

/-- Oracle client serving the concrete group and one user per member id. -/
def membersClient : plugin.ScimClientModel :=
  { listGroups := fun _ _ _ _ => .error (.otherError "unused"),
    listUsers := fun _ _ _ _ => .error (.otherError "unused"),
    getGroup := fun _ _ => .ok kGroup,
    getUser := fun id => .ok (memberUser id) }

/-- Plugin in membership-traversal mode over the members client. -/
def traversalPlugin : plugin.Plugin :=
  { scimClient := some membersClient, params := {} }

/-- Oracle client whose second member lookup fails. -/
def failingSecondClient : plugin.ScimClientModel :=
  { listGroups := fun _ _ _ _ => .error (.otherError "unused"),
    listUsers := fun _ _ _ _ => .error (.otherError "unused"),
    getGroup := fun _ _ => .ok kGroup,
    getUser := fun id =>
      if id = "u2" then .error (.otherError "boom") else .ok (memberUser id) }

/-- Plugin in membership-traversal mode over the failing client. -/
def failingTraversalPlugin : plugin.Plugin :=
  { scimClient := some failingSecondClient, params := {} }

/-- Basic-auth secret reference with an empty client id. -/
def emptyIDBasicAuth : commoncfg.SecretRef :=
  { type := commoncfg.BasicSecretType,
    basic := ⟨.embedded "", .embedded ""⟩ }

/-- Constructed client with concrete basic credentials. -/
def basicClient : scim.Client :=
  { host := "https://example.com",
    basicAuth := some ⟨"abc", "secret"⟩,
    hasTLSTransport := false }

/-- Outgoing POST request with no headers yet. -/
def postRequest : scim.Request := { method := "POST", headers := [] }

/-- Not-found user response. -/
def notFoundUserResponse : httpclient.HResponse scim.User :=
  { statusCode := 404, status := "404 Not Found", body := none }

/-- Not-found group response. -/
def notFoundGroupResponse : httpclient.HResponse scim.Group :=
  { statusCode := 404, status := "404 Not Found", body := none }

/-- OK-status user-list response whose body is malformed JSON. -/
def malformedUserListResponse : httpclient.HResponse scim.UserList :=
  { statusCode := 200, status := "200 OK", body := none }

/-- OK-status group-list response whose body is malformed JSON. -/
def malformedGroupListResponse : httpclient.HResponse scim.GroupList :=
  { statusCode := 200, status := "200 OK", body := none }

end fixtures

theorem intercalate_go_eq (sep : String) (as : List String) :
    ∀ acc : String, String.intercalate.go acc sep as = acc ++ sepTail sep as := by
  induction as with
  | nil => intro acc; simp [String.intercalate.go, sepTail]
  | cons a rest ih =>
    intro acc
    rw [String.intercalate.go, ih, sepTail]
    simp [String.append_assoc]

theorem joinSep_cons_eq_sepTail (sep s : String) (rest : List String) :
    filterspec.joinSep sep (s :: rest) = s ++ sepTail sep rest := by
  induction rest generalizing s with
  | nil => simp [filterspec.joinSep, sepTail]
  | cons t rest2 ih =>
    rw [filterspec.joinSep, ih, sepTail]
    simp [String.append_assoc]

theorem string_intercalate_eq_joinSep (sep : String) (l : List String) :
    String.intercalate sep l = filterspec.joinSep sep l := by
  cases l with
  | nil => rfl
  | cons a as =>
    rw [String.intercalate, intercalate_go_eq, joinSep_cons_eq_sepTail]

theorem refToString_andGroup (es : List scim.FilterExpression) :
    filterspec.refToString (.andGroup es) =
      "(" ++ filterspec.joinSep " and " (es.map filterspec.refToString) ++ ")" := by
  rw [filterspec.refToString]
  rw [List.attach_map_val es filterspec.refToString]

theorem refToString_orGroup (es : List scim.FilterExpression) :
    filterspec.refToString (.orGroup es) =
      "(" ++ filterspec.joinSep " or " (es.map filterspec.refToString) ++ ")" := by
  rw [filterspec.refToString]
  rw [List.attach_map_val es filterspec.refToString]

mutual

theorem filter_ToString_eq_ref :
    (f : scim.FilterExpression) → f.ToString = filterspec.refToString f
  | .nullFilter => by
      rw [scim.FilterExpression.ToString, filterspec.refToString]
  | .comparison a op v => by
      rw [scim.FilterExpression.ToString, filterspec.refToString]
  | .andGroup es => by
      rw [scim.FilterExpression.ToString, refToString_andGroup,
        string_intercalate_eq_joinSep, exprStrings_eq_map es]
  | .orGroup es => by
      rw [scim.FilterExpression.ToString, refToString_orGroup,
        string_intercalate_eq_joinSep, exprStrings_eq_map es]
  | .notGroup e => by
      rw [scim.FilterExpression.ToString, filterspec.refToString,
        filter_ToString_eq_ref e]

theorem exprStrings_eq_map :
    (es : List scim.FilterExpression) →
      scim.exprStrings es = es.map filterspec.refToString
  | [] => rfl
  | e :: rest => by
      rw [scim.exprStrings, filter_ToString_eq_ref e, exprStrings_eq_map rest,
        List.map_cons]

end

theorem intercalate_singleton (sep a : String) :
    String.intercalate sep [a] = a := rfl

/-- C6: for every filter-expression tree, ToString agrees with the
reference SCIM grammar serialization written from the spec (comparisons
print the always-double-quoted value with no escaping, and/or groups
print the parenthesized " and "/" or "-joined children with a
single-child group still parenthesized, not prepends "not " without
parentheses, and the null filter prints the empty string). -/
theorem c6_toString_is_reference_serialization :
    (∀ f : scim.FilterExpression, f.ToString = filterspec.refToString f) ∧
    (∀ x : scim.FilterExpression,
      (scim.FilterExpression.andGroup [x]).ToString = "(" ++ x.ToString ++ ")") ∧
    (∀ x : scim.FilterExpression,
      (scim.FilterExpression.notGroup x).ToString = "not " ++ x.ToString) ∧
    scim.FilterExpression.nullFilter.ToString = "" := by
  refine ⟨filter_ToString_eq_ref, ?_, ?_, rfl⟩
  · intro x
    rw [scim.FilterExpression.ToString, scim.exprStrings, scim.exprStrings,
      intercalate_singleton]
  · intro x
    rw [scim.FilterExpression.ToString]

theorem firstPrimaryValue_none_of_no_primary
    {l : List scim.MultiValuedAttribute} (h : ∀ x ∈ l, x.primary = false) :
    plugin.firstPrimaryValue l = none := by
  induction l with
  | nil => rfl
  | cons a rest ih =>
    have ha := h a (List.mem_cons_self a rest)
    rw [plugin.firstPrimaryValue, ha]
    exact ih (fun x hx => h x (List.mem_cons_of_mem a hx))

theorem firstPrimaryValue_isSome_of_mem
    {l : List scim.MultiValuedAttribute} {e : scim.MultiValuedAttribute}
    (he : e ∈ l) (hp : e.primary = true) :
    ∃ v, plugin.firstPrimaryValue l = some v := by
  induction l with
  | nil => cases he
  | cons a rest ih =>
    by_cases ha : a.primary = true
    · exact ⟨a.value, by rw [plugin.firstPrimaryValue, ha]; rfl⟩
    · rcases List.mem_cons.mp he with h1 | h1
      · exact absurd (h1 ▸ hp) ha
      · rcases ih h1 with ⟨v, hv⟩
        refine ⟨v, ?_⟩
        rw [plugin.firstPrimaryValue, eq_false_of_ne_true ha]
        simpa using hv

theorem firstPrimaryValue_some_mem
    {l : List scim.MultiValuedAttribute} {v : String}
    (h : plugin.firstPrimaryValue l = some v) :
    ∃ e2, e2 ∈ l ∧ e2.primary = true ∧ e2.value = v := by
  induction l with
  | nil => cases h
  | cons a rest ih =>
    by_cases ha : a.primary = true
    · rw [plugin.firstPrimaryValue, ha] at h
      simp at h
      exact ⟨a, List.mem_cons_self a rest, ha, h⟩
    · rw [plugin.firstPrimaryValue, eq_false_of_ne_true ha] at h
      simp at h
      rcases ih h with ⟨e2, h1, h2, h3⟩
      exact ⟨e2, List.mem_cons_of_mem a h1, h2, h3⟩

/-- C7: the email projected into a host-facing response is the value of
an email flagged primary when one exists, otherwise the value of the
first email when the list is non-empty, otherwise the empty string; and
the selection depends only on the emails list, hence is deterministic. -/
theorem c7_email_projection (user : scim.User) :
    (user.emails = [] → plugin.getPrimaryEmailAddress user = "") ∧
    (∀ e rest, user.emails = e :: rest →
      (∀ x ∈ user.emails, x.primary = false) →
      plugin.getPrimaryEmailAddress user = e.value) ∧
    (∀ e, e ∈ user.emails → e.primary = true →
      ∃ e2, e2 ∈ user.emails ∧ e2.primary = true ∧
        plugin.getPrimaryEmailAddress user = e2.value) ∧
    (∀ u2 : scim.User, u2.emails = user.emails →
      plugin.getPrimaryEmailAddress u2 = plugin.getPrimaryEmailAddress user) := by
  refine ⟨?_, ?_, ?_, ?_⟩
  · intro h
    rw [plugin.getPrimaryEmailAddress, h]
    rfl
  · intro e rest hcons hnone
    rw [plugin.getPrimaryEmailAddress,
      firstPrimaryValue_none_of_no_primary hnone, hcons]
  · intro e he hp
    rcases firstPrimaryValue_isSome_of_mem he hp with ⟨v, hv⟩
    rcases firstPrimaryValue_some_mem hv with ⟨e2, h1, h2, h3⟩
    refine ⟨e2, h1, h2, ?_⟩
    rw [plugin.getPrimaryEmailAddress, hv, h3]
  · intro u2 h
    rw [plugin.getPrimaryEmailAddress, plugin.getPrimaryEmailAddress, h]

/-- Witness for C7 at three concrete users: primary present, primary
absent, empty list. -/
theorem c7_email_projection_witness :
    plugin.getPrimaryEmailAddress fixtures.noEmailUser = "" ∧
    plugin.getPrimaryEmailAddress fixtures.noPrimaryUser = "first@y" ∧
    ∃ e2, e2 ∈ fixtures.primaryUser.emails ∧ e2.primary = true ∧
      plugin.getPrimaryEmailAddress fixtures.primaryUser = e2.value := by
  refine ⟨(c7_email_projection fixtures.noEmailUser).1 rfl,
    (c7_email_projection fixtures.noPrimaryUser).2.1
      { value := "first@y" } [{ value := "second@y" }] rfl (by decide),
    (c7_email_projection fixtures.primaryUser).2.2.1
      { primary := true, value := "p@x" } (by decide) rfl⟩

/-- C5: building the POST search-request body with a nil or null filter
fails with the no-filter error, while building the GET query values with
a nil or null filter succeeds and emits no filter key at all, only the
cursor and count keys when supplied; the query string is the encoding of
exactly those values. -/
theorem c5_null_filter_handling (cursor : Option String) (count : Option Int) :
    scim.buildBodyFromParams none count cursor = .error .errNoFilter ∧
    scim.buildBodyFromParams (some .nullFilter) count cursor = .error .errNoFilter ∧
    ((scim.queryValuesFromParams (some .nullFilter) cursor count).all
      (fun kv => kv.1 != "filter")) = true ∧
    ((scim.queryValuesFromParams none cursor count).all
      (fun kv => kv.1 != "filter")) = true ∧
    (("cursor" ∈ (scim.queryValuesFromParams (some .nullFilter) cursor count).map
      Prod.fst) ↔ cursor.isSome = true) ∧
    (("count" ∈ (scim.queryValuesFromParams (some .nullFilter) cursor count).map
      Prod.fst) ↔ count.isSome = true) ∧
    scim.buildQueryStringFromParams (some .nullFilter) cursor count =
      goenc.valuesEncode (scim.queryValuesFromParams (some .nullFilter) cursor count) := by
  refine ⟨rfl, rfl, ?_, ?_, ?_, ?_, rfl⟩ <;>
    cases cursor <;> cases count <;>
      simp [scim.queryValuesFromParams, scim.isNullFilter]

/-- Counterexample for C4: constructing the SCIM client with basic auth
and an empty client id succeeds (the repository test getBasicClient
relies on exactly this), so an empty client id does not fail with a
client-id-required error. -/
theorem c4_counterexample :
    scim.NewClient "https://example.com" fixtures.emptyIDBasicAuth =
      .ok { host := "https://example.com", basicAuth := some ⟨"", ""⟩,
            hasTLSTransport := false } := rfl

/-- C4 amended: NewClient performs no client-id validation: basic-auth
construction with loadable credential references succeeds for every
host, client id and secret, in particular for the empty client id; an
unresolvable username reference fails with the client-id load error. -/
theorem c4_new_client_no_id_validation (host id secret : String) :
    scim.NewClient host
      { type := commoncfg.BasicSecretType,
        basic := ⟨.embedded id, .embedded secret⟩ } =
      .ok { host := host, basicAuth := some ⟨id, secret⟩,
            hasTLSTransport := false } ∧
    scim.NewClient host
      { type := commoncfg.BasicSecretType,
        basic := ⟨.unresolvable, .embedded secret⟩ } =
      .error .errClientID := by
  constructor <;> rfl

/-- Counterexample for C3: GetAllGroups on an unconfigured plugin does
not return the no-scim-client sentinel (the source has no nil check
there and dereferences the nil client). -/
theorem c3_counterexample :
    ¬ ((fixtures.noClientPlugin.GetAllGroups).1 =
        plugin.POutcome.fail GoError.errNoScimClient) := by decide

/-- C3 amended: GetGroup, GetUsersForGroup and GetGroupsForUser check
for the missing SCIM client first and return the distinct sentinel with
no client call issued; GetAllGroups performs no such check and instead
dereferences the nil client. -/
theorem c3_no_client_sentinel (p : plugin.Plugin) (h : p.scimClient = none)
    (name gid uid : String) :
    (p.GetGroup name).1 = .fail .errNoScimClient ∧ (p.GetGroup name).2 = [] ∧
    (p.GetUsersForGroup gid).1 = .fail .errNoScimClient ∧
    (p.GetUsersForGroup gid).2 = [] ∧
    (p.GetGroupsForUser uid).1 = .fail .errNoScimClient ∧
    (p.GetGroupsForUser uid).2 = [] ∧
    (p.GetAllGroups).1 = .nilPanic := by
  simp [plugin.Plugin.GetGroup, plugin.Plugin.GetUsersForGroup,
    plugin.Plugin.GetGroupsForUser, plugin.Plugin.GetAllGroups, h]

/-- Witness for C3 amended at the concrete unconfigured plugin. -/
theorem c3_no_client_sentinel_witness :
    (fixtures.noClientPlugin.GetGroup "X").1 = .fail .errNoScimClient ∧
    (fixtures.noClientPlugin.GetGroup "X").2 = [] ∧
    (fixtures.noClientPlugin.GetUsersForGroup "g").1 = .fail .errNoScimClient ∧
    (fixtures.noClientPlugin.GetUsersForGroup "g").2 = [] ∧
    (fixtures.noClientPlugin.GetGroupsForUser "u").1 = .fail .errNoScimClient ∧
    (fixtures.noClientPlugin.GetGroupsForUser "u").2 = [] ∧
    (fixtures.noClientPlugin.GetAllGroups).1 = .nilPanic :=
  c3_no_client_sentinel fixtures.noClientPlugin rfl "X" "g" "u"

theorem getFilter_not_null {value : String} (h : value ≠ "")
    (defaultAttribute setAttribute : String) :
    scim.isNullFilter (plugin.getFilter defaultAttribute value setAttribute) =
      false := by
  rw [plugin.getFilter, if_neg h]
  rfl

/-- C10: a successful list response with zero resources is not an error.
For GetGroupsForUser and for GetUsersForGroup in direct-search mode,
given a non-blank id, a configured plugin and a client delivering an
empty resource list, the operation succeeds with an empty non-nil list. -/
theorem c10_empty_resources_success (p : plugin.Plugin)
    (c : plugin.ScimClientModel) (userId groupID : String)
    (hc : p.scimClient = some c) (hu : userId ≠ "") (hg : groupID ≠ "")
    (hattr : p.params.groupAttribute ≠ "")
    (hallow : p.params.allowSearchUsersByGroup = true)
    (hlg : c.listGroups p.getListMethod
      (plugin.getFilter plugin.defaultUserListAttribute userId
        p.params.userAttribute) none none = .ok { resources := [] })
    (hlu : c.listUsers p.getListMethod
      (plugin.getFilter plugin.defaultUserListAttribute groupID
        p.params.groupAttribute) none none = .ok { resources := [] }) :
    (p.GetGroupsForUser userId).1 = .ok { groups := some [] } ∧
    (p.GetUsersForGroup groupID).1 = .ok { users := some [] } := by
  constructor
  · rw [plugin.Plugin.GetGroupsForUser, hc]
    simp only [plugin.Plugin.listGroupsM, getFilter_not_null hu, hlg]
    rfl
  · rw [plugin.Plugin.GetUsersForGroup, hc]
    simp only [if_neg hg, hallow, if_true]
    rw [plugin.Plugin.getUsersForGroupUsingUserList]
    simp only [if_neg hattr, hlu]
    rfl

/-- Witness for C10 over the empty-list client in direct-search mode. -/
theorem c10_empty_resources_success_witness :
    (fixtures.directSearchPlugin.GetGroupsForUser "u1").1 =
      .ok { groups := some [] } ∧
    (fixtures.directSearchPlugin.GetUsersForGroup "g1").1 =
      .ok { users := some [] } :=
  c10_empty_resources_success fixtures.directSearchPlugin
    fixtures.emptyListClient "u1" "g1" rfl (by decide) (by decide) (by decide)
    rfl rfl rfl

theorem headerGet_headerSet_same (hs : List (String × String)) (k v : String) :
    scim.headerGet (scim.headerSet hs k v) k = some v := by
  induction hs with
  | nil => simp [scim.headerGet, scim.headerSet]
  | cons p rest ih =>
    by_cases hp : p.1 = k
    · rw [scim.headerSet, if_pos hp]
      exact ih
    · rw [scim.headerSet, if_neg hp, scim.headerGet, if_neg hp]
      exact ih

theorem headerGet_headerSet_other (hs : List (String × String))
    (k v k2 : String) (h : k2 ≠ k) :
    scim.headerGet (scim.headerSet hs k v) k2 = scim.headerGet hs k2 := by
  induction hs with
  | nil =>
    have hk : ¬ k = k2 := fun hx => h hx.symm
    simp [scim.headerSet, scim.headerGet, hk]
  | cons p rest ih =>
    by_cases hp : p.1 = k
    · have hp2 : ¬ p.1 = k2 := by rw [hp]; exact fun hx => h hx.symm
      rw [scim.headerSet, if_pos hp, ih, scim.headerGet, if_neg hp2]
    · by_cases hq : p.1 = k2
      · rw [scim.headerSet, if_neg hp, scim.headerGet, if_pos hq,
          scim.headerGet, if_pos hq]
      · rw [scim.headerSet, if_neg hp, scim.headerGet, if_neg hq,
          scim.headerGet, if_neg hq, ih]

/-- C9: every request leaving doRequest carries the SCIM accept header;
POST, PUT and PATCH requests additionally carry the SCIM content type;
and in basic-auth mode the Authorization header is the word Basic
followed by the base64 encoding (standard alphabet, unpadded) of the
client id, a colon and the client secret. -/
theorem c9_do_request_headers (c : scim.Client) (req : scim.Request)
    (creds : scim.BasicCreds) :
    scim.headerGet (c.doRequest req).headers "Accept" =
      some scim.ApplicationSCIMJson ∧
    ((req.method = http.MethodPost ∨ req.method = http.MethodPut ∨
        req.method = http.MethodPatch) →
      scim.headerGet (c.doRequest req).headers "Content-Type" =
        some scim.ApplicationSCIMJson) ∧
    (c.basicAuth = some creds →
      scim.headerGet (c.doRequest req).headers scim.HeaderAuthorization =
        some ("Basic " ++ goenc.base64RawStd
          (goenc.utf8Bytes (creds.clientID ++ ":" ++ creds.clientSecret)))) := by
  refine ⟨?_, ?_, ?_⟩
  · cases hba : c.basicAuth with
    | none =>
      simp only [scim.Client.doRequest, hba]
      exact headerGet_headerSet_same _ _ _
    | some creds0 =>
      simp only [scim.Client.doRequest, hba, scim.HeaderAuthorization]
      rw [headerGet_headerSet_other _ _ _ _ (by decide)]
      exact headerGet_headerSet_same _ _ _
  · intro hm
    cases hba : c.basicAuth with
    | none =>
      simp only [scim.Client.doRequest, hba, if_pos hm]
      rw [headerGet_headerSet_other _ _ _ _ (by decide)]
      exact headerGet_headerSet_same _ _ _
    | some creds0 =>
      simp only [scim.Client.doRequest, hba, if_pos hm, scim.HeaderAuthorization]
      rw [headerGet_headerSet_other _ _ _ _ (by decide),
        headerGet_headerSet_other _ _ _ _ (by decide)]
      exact headerGet_headerSet_same _ _ _
  · intro hcreds
    simp only [scim.Client.doRequest, hcreds]
    exact headerGet_headerSet_same _ _ _

/-- Witness for C9 at a concrete basic-auth client and POST request,
with the Authorization value fully evaluated. -/
theorem c9_do_request_headers_witness :
    scim.headerGet ((fixtures.basicClient.doRequest fixtures.postRequest).headers)
      "Accept" = some scim.ApplicationSCIMJson ∧
    scim.headerGet ((fixtures.basicClient.doRequest fixtures.postRequest).headers)
      "Content-Type" = some scim.ApplicationSCIMJson ∧
    scim.headerGet ((fixtures.basicClient.doRequest fixtures.postRequest).headers)
      scim.HeaderAuthorization = some "Basic YWJjOnNlY3JldA" := by
  have h := c9_do_request_headers fixtures.basicClient fixtures.postRequest
    ⟨"abc", "secret"⟩
  refine ⟨h.1, h.2.1 (Or.inl rfl), ?_⟩
  rw [h.2.2 rfl]
  rfl

theorem errorIs_refl (e : GoError) : errorIs e e = true := by
  cases e <;> simp [errorIs]

theorem errorIs_wrap_left (a b t : GoError) (h : errorIs a t = true) :
    errorIs (.wrap a b) t = true := by
  rw [errorIs]
  by_cases hc : GoError.wrap a b = t
  · simp [hc]
  · simp [hc, h]

theorem errorIs_wrap_right (a b t : GoError) (h : errorIs b t = true) :
    errorIs (.wrap a b) t = true := by
  rw [errorIs]
  by_cases hc : GoError.wrap a b = t
  · simp [hc]
  · simp [hc, h]

theorem errorIs_withSuffix_chain (a t : GoError) (txt : String)
    (h : errorIs a t = true) : errorIs (.withSuffix a txt) t = true := by
  rw [errorIs]
  by_cases hc : GoError.withSuffix a txt = t
  · simp [hc]
  · simp [hc, h]

theorem errorIs_invalidResponse_chain (api : String) (cause t : GoError)
    (h : errorIs cause t = true) :
    errorIs (.invalidResponse api cause) t = true := by
  rw [errorIs]
  by_cases hc : GoError.invalidResponse api cause = t
  · simp [hc]
  · simp [hc, h]

/-- C8: every failing SCIM client operation wraps its operation-specific
marker while keeping the cause in the chain; a 404 on GetUser or
GetGroup yields the operation marker wrapping the unexpected-status
cause carrying the status text and is not a decode error; a malformed
200 body on ListUsers or ListGroups yields the operation marker wrapping
the invalid-response decode error. -/
theorem c8_client_error_wrapping (te : GoError)
    (ru : httpclient.HResponse scim.User)
    (rg : httpclient.HResponse scim.Group)
    (lu : httpclient.HResponse scim.UserList)
    (lg : httpclient.HResponse scim.GroupList) :
    (scim.GetUserResult (.error te) = .error (.wrap .errGetUser te) ∧
      scim.ListUsersResult (.error te) = .error (.wrap .errListUsers te) ∧
      scim.GetGroupResult (.error te) = .error (.wrap .errGetGroup te) ∧
      scim.ListGroupsResult (.error te) = .error (.wrap .errListGroups te) ∧
      errorIs (.wrap .errGetUser te) .errGetUser = true ∧
      errorIs (.wrap .errGetUser te) te = true) ∧
    (ru.statusCode = 404 →
      scim.GetUserResult (.ok ru) = .error (.wrap .errGetUser
        (.invalidResponse "SCIM"
          (.withSuffix .errUnexpectedStatusCode ru.status))) ∧
      errorIs (.wrap .errGetUser (.invalidResponse "SCIM"
        (.withSuffix .errUnexpectedStatusCode ru.status))) .errGetUser = true ∧
      errorIs (.wrap .errGetUser (.invalidResponse "SCIM"
        (.withSuffix .errUnexpectedStatusCode ru.status)))
        .errUnexpectedStatusCode = true ∧
      errorIs (.wrap .errGetUser (.invalidResponse "SCIM"
        (.withSuffix .errUnexpectedStatusCode ru.status)))
        .jsonDecodeError = false) ∧
    (rg.statusCode = 404 →
      scim.GetGroupResult (.ok rg) = .error (.wrap .errGetGroup
        (.invalidResponse "SCIM"
          (.withSuffix .errUnexpectedStatusCode rg.status))) ∧
      errorIs (.wrap .errGetGroup (.invalidResponse "SCIM"
        (.withSuffix .errUnexpectedStatusCode rg.status))) .errGetGroup = true ∧
      errorIs (.wrap .errGetGroup (.invalidResponse "SCIM"
        (.withSuffix .errUnexpectedStatusCode rg.status)))
        .jsonDecodeError = false) ∧
    (lu.statusCode = 200 → lu.body = none →
      scim.ListUsersResult (.ok lu) = .error (.wrap .errListUsers
        (.invalidResponse "SCIM" .jsonDecodeError)) ∧
      errorIs (.wrap .errListUsers (.invalidResponse "SCIM" .jsonDecodeError))
        .errListUsers = true ∧
      errorIs (.wrap .errListUsers (.invalidResponse "SCIM" .jsonDecodeError))
        (.invalidResponse "SCIM" .jsonDecodeError) = true) ∧
    (lg.statusCode = 200 → lg.body = none →
      scim.ListGroupsResult (.ok lg) = .error (.wrap .errListGroups
        (.invalidResponse "SCIM" .jsonDecodeError)) ∧
      errorIs (.wrap .errListGroups (.invalidResponse "SCIM" .jsonDecodeError))
        .errListGroups = true) := by
  refine ⟨⟨rfl, rfl, rfl, rfl,
    errorIs_wrap_left _ _ _ (errorIs_refl _),
    errorIs_wrap_right _ _ _ (errorIs_refl _)⟩, ?_, ?_, ?_, ?_⟩
  · intro h404
    refine ⟨?_, errorIs_wrap_left _ _ _ (errorIs_refl _),
      errorIs_wrap_right _ _ _ (errorIs_invalidResponse_chain _ _ _
        (errorIs_withSuffix_chain _ _ _ (errorIs_refl _))), ?_⟩
    · simp [scim.GetUserResult, httpclient.DecodeResponse, h404, http.StatusOK]
    · simp [errorIs]
  · intro h404
    refine ⟨?_, errorIs_wrap_left _ _ _ (errorIs_refl _), ?_⟩
    · simp [scim.GetGroupResult, httpclient.DecodeResponse, h404, http.StatusOK]
    · simp [errorIs]
  · intro h200 hbody
    exact ⟨by simp [scim.ListUsersResult, httpclient.DecodeResponse, h200,
        hbody, http.StatusOK],
      errorIs_wrap_left _ _ _ (errorIs_refl _),
      errorIs_wrap_right _ _ _ (errorIs_refl _)⟩
  · intro h200 hbody
    exact ⟨by simp [scim.ListGroupsResult, httpclient.DecodeResponse, h200,
        hbody, http.StatusOK],
      errorIs_wrap_left _ _ _ (errorIs_refl _)⟩

/-- Witness for C8 at concrete 404 and malformed-200 responses. -/
theorem c8_client_error_wrapping_witness :
    scim.GetUserResult (.ok fixtures.notFoundUserResponse) =
      .error (.wrap .errGetUser (.invalidResponse "SCIM"
        (.withSuffix .errUnexpectedStatusCode "404 Not Found"))) ∧
    scim.GetGroupResult (.ok fixtures.notFoundGroupResponse) =
      .error (.wrap .errGetGroup (.invalidResponse "SCIM"
        (.withSuffix .errUnexpectedStatusCode "404 Not Found"))) ∧
    scim.ListUsersResult (.ok fixtures.malformedUserListResponse) =
      .error (.wrap .errListUsers (.invalidResponse "SCIM" .jsonDecodeError)) ∧
    scim.ListGroupsResult (.ok fixtures.malformedGroupListResponse) =
      .error (.wrap .errListGroups (.invalidResponse "SCIM" .jsonDecodeError)) := by
  have h := c8_client_error_wrapping (.otherError "transport")
    fixtures.notFoundUserResponse fixtures.notFoundGroupResponse
    fixtures.malformedUserListResponse fixtures.malformedGroupListResponse
  exact ⟨(h.2.1 rfl).1, (h.2.2.1 rfl).1, (h.2.2.2.1 rfl rfl).1,
    (h.2.2.2.2 rfl rfl).1⟩

/-- Counterexample for C1: at the empty group name, GetGroup issues no
list call at all (the filter degenerates to the null filter) and fails
with the wrapped no-filter-id error, which is neither the non-existent
nor the multiple-groups outcome, although the configured client would
have reported exactly one group. -/
theorem c1_counterexample :
    (fixtures.configuredPlugin.GetGroup "").2 = [] ∧
    (fixtures.configuredPlugin.GetGroup "").1 =
      .fail (.wrap .errGetGroupPlugin .errNoID) := ⟨rfl, rfl⟩

/-- C1 amended: for every non-empty group name, GetGroup builds the
equality filter on the configured group attribute (default displayName),
issues exactly one list call, and requires exactly one match: zero
groups fail with the wrapped non-existent error, two or more fail with
the wrapped multiple-groups error, and exactly one succeeds with that
group; an empty group name instead fails fast with the wrapped
no-filter-id error without listing. -/
theorem c1_get_group_requires_unique_match (p : plugin.Plugin)
    (c : plugin.ScimClientModel) (groupName : String)
    (hc : p.scimClient = some c) (hn : groupName ≠ "") :
    plugin.getFilter plugin.defaultGroupsFilterAttribute groupName
        p.params.groupAttribute =
      .comparison
        (if p.params.groupAttribute ≠ "" then p.params.groupAttribute
          else plugin.defaultGroupsFilterAttribute) .eq groupName ∧
    (p.GetGroup groupName).2 =
      [.listGroupsCall p.getListMethod
        (plugin.getFilter plugin.defaultGroupsFilterAttribute groupName
          p.params.groupAttribute) none none] ∧
    (∀ e, c.listGroups p.getListMethod
        (plugin.getFilter plugin.defaultGroupsFilterAttribute groupName
          p.params.groupAttribute) none none = .error e →
      (p.GetGroup groupName).1 = .fail (.wrap .errGetGroupPlugin e)) ∧
    (∀ gl, c.listGroups p.getListMethod
        (plugin.getFilter plugin.defaultGroupsFilterAttribute groupName
          p.params.groupAttribute) none none = .ok gl →
      (gl.resources = [] →
        (p.GetGroup groupName).1 =
          .fail (.wrap .errGetGroupPlugin .errGetGroupNonExistent)) ∧
      (∀ g, gl.resources = [g] →
        (p.GetGroup groupName).1 =
          .ok { group := { id := g.id, name := g.displayName } }) ∧
      (∀ g1 g2 grest, gl.resources = g1 :: g2 :: grest →
        (p.GetGroup groupName).1 =
          .fail (.wrap .errGetGroupPlugin .errGetGroupMultipleGroups))) := by
  have hf := getFilter_not_null hn plugin.defaultGroupsFilterAttribute
    p.params.groupAttribute
  refine ⟨by rw [plugin.getFilter, if_neg hn], ?_, ?_, ?_⟩
  · rcases hr : c.listGroups p.getListMethod
        (plugin.getFilter plugin.defaultGroupsFilterAttribute groupName
          p.params.groupAttribute) none none with e | gl
    · simp [plugin.Plugin.GetGroup, hc, plugin.Plugin.listGroupsM, hf, hr]
    · rcases gl with ⟨res⟩
      rcases res with _ | ⟨g, _ | ⟨g2, rest2⟩⟩ <;>
        simp [plugin.Plugin.GetGroup, hc, plugin.Plugin.listGroupsM, hf, hr]
  · intro e hr
    simp [plugin.Plugin.GetGroup, hc, plugin.Plugin.listGroupsM, hf, hr]
  · intro gl hr
    refine ⟨?_, ?_, ?_⟩
    · intro hres
      simp [plugin.Plugin.GetGroup, hc, plugin.Plugin.listGroupsM, hf, hr, hres]
    · intro g hres
      simp [plugin.Plugin.GetGroup, hc, plugin.Plugin.listGroupsM, hf, hr, hres]
    · intro g1 g2 grest hres
      simp [plugin.Plugin.GetGroup, hc, plugin.Plugin.listGroupsM, hf, hr, hres]

/-- Witness for C1 amended at a configured plugin whose client reports
exactly one group. -/
theorem c1_get_group_requires_unique_match_witness :
    (fixtures.configuredPlugin.GetGroup "KeyAdmin").1 =
      .ok { group := { id := "g1", name := "KeyAdmin" } } := by
  have h := c1_get_group_requires_unique_match fixtures.configuredPlugin
    fixtures.oneGroupClient "KeyAdmin" rfl (by decide)
  exact (h.2.2.2 { resources := [fixtures.kGroup] } rfl).2.1 fixtures.kGroup rfl

theorem membersLoop_all_ok (c : plugin.ScimClientModel) (us : String → scim.User) :
    ∀ (members : List scim.MultiValuedAttribute) (l : List idmangv1.User),
      (∀ m ∈ members, c.getUser m.value = .ok (us m.value)) →
      plugin.membersLoop c members (some l) =
        (.ok (some (l ++ members.map (fun m => plugin.projUser (us m.value)))),
         members.map (fun m => plugin.ClientCall.getUserCall m.value)) := by
  intro members
  induction members with
  | nil => intro l h; simp [plugin.membersLoop]
  | cons member rest ih =>
    intro l h
    have hm := h member (List.mem_cons_self member rest)
    have hrest := fun m hm2 => h m (List.mem_cons_of_mem member hm2)
    have hstep := ih (l ++ [plugin.projUser (us member.value)]) hrest
    simp only [plugin.membersLoop, hm, goAppend, Option.getD_some,
      plugin.projUser] at *
    simp [hstep]

theorem membersLoop_first_error (c : plugin.ScimClientModel)
    (us : String → scim.User) :
    ∀ (pre : List scim.MultiValuedAttribute)
      (mbad : scim.MultiValuedAttribute)
      (post : List scim.MultiValuedAttribute)
      (l : List idmangv1.User) (e : GoError),
      (∀ m ∈ pre, c.getUser m.value = .ok (us m.value)) →
      c.getUser mbad.value = .error e →
      plugin.membersLoop c (pre ++ mbad :: post) (some l) =
        (.error (.wrap .errGetUsersForGroup e),
         pre.map (fun m => plugin.ClientCall.getUserCall m.value) ++
           [plugin.ClientCall.getUserCall mbad.value]) := by
  intro pre
  induction pre with
  | nil =>
    intro mbad post l e _ hbad
    simp [plugin.membersLoop, hbad]
  | cons m0 rest ih =>
    intro mbad post l e h hbad
    have hm := h m0 (List.mem_cons_self m0 rest)
    have hrest := fun m hm2 => h m (List.mem_cons_of_mem m0 hm2)
    have hstep := ih mbad post (l ++ [plugin.projUser (us m0.value)]) e hrest hbad
    simp only [List.cons_append, plugin.membersLoop, hm, goAppend,
      Option.getD_some, plugin.projUser] at *
    simp [hstep]

/-- Counterexample for C2: at the empty group id, GetUsersForGroup in
membership-traversal mode issues no client call at all and fails with
the wrapped no-filter-id error, so it does not issue one GetGroup call
for every group id. -/
theorem c2_counterexample :
    (fixtures.traversalPlugin.GetUsersForGroup "").2 = [] ∧
    (fixtures.traversalPlugin.GetUsersForGroup "").1 =
      .fail (.wrap .errGetUsersForGroup .errNoID) := ⟨rfl, rfl⟩

/-- C2 amended: for every non-blank group id, with
allowSearchUsersByGroup false, GetUsersForGroup issues exactly one
GetGroup call and then one GetUser call per member in member-list order,
assembling the users in that order; a failing GetGroup aborts with the
wrapped error after the single GetGroup call, and a failing GetUser
aborts with the wrapped error right after the failing lookup and no
user list is returned; a blank group id instead fails fast with the
wrapped no-filter-id error and no call. -/
theorem c2_membership_traversal (p : plugin.Plugin)
    (c : plugin.ScimClientModel) (groupID : String) (us : String → scim.User)
    (hc : p.scimClient = some c) (hg : groupID ≠ "")
    (hflag : p.params.allowSearchUsersByGroup = false) :
    (∀ e, c.getGroup groupID p.params.groupMembersAttribute = .error e →
      (p.GetUsersForGroup groupID).1 =
        .fail (.wrap .errGetUsersForGroup (.wrap .errGetUsersForGroup e)) ∧
      (p.GetUsersForGroup groupID).2 =
        [.getGroupCall groupID p.params.groupMembersAttribute]) ∧
    (∀ g, c.getGroup groupID p.params.groupMembersAttribute = .ok g →
      ((∀ m ∈ g.members, c.getUser m.value = .ok (us m.value)) →
        (p.GetUsersForGroup groupID).1 =
          .ok { users := some (g.members.map
            (fun m => plugin.projUser (us m.value))) } ∧
        (p.GetUsersForGroup groupID).2 =
          .getGroupCall groupID p.params.groupMembersAttribute ::
            g.members.map (fun m => plugin.ClientCall.getUserCall m.value)) ∧
      (∀ pre mbad post e, g.members = pre ++ mbad :: post →
        (∀ m ∈ pre, c.getUser m.value = .ok (us m.value)) →
        c.getUser mbad.value = .error e →
        (p.GetUsersForGroup groupID).1 =
          .fail (.wrap .errGetUsersForGroup (.wrap .errGetUsersForGroup e)) ∧
        (p.GetUsersForGroup groupID).2 =
          .getGroupCall groupID p.params.groupMembersAttribute ::
            (pre.map (fun m => plugin.ClientCall.getUserCall m.value) ++
              [plugin.ClientCall.getUserCall mbad.value]))) := by
  constructor
  · intro e hge
    constructor <;>
      simp [plugin.Plugin.GetUsersForGroup, hc, hg, hflag,
        plugin.Plugin.getUsersForGroupUsingGroupMembers, hge]
  · intro g hgg
    constructor
    · intro hall
      have hloop := membersLoop_all_ok c us g.members [] hall
      constructor <;>
        simp [plugin.Plugin.GetUsersForGroup, hc, hg, hflag,
          plugin.Plugin.getUsersForGroupUsingGroupMembers, hgg, hloop]
    · intro pre mbad post e hmem hpre hbad
      have hloop := membersLoop_first_error c us pre mbad post [] e hpre hbad
      constructor <;>
        simp [plugin.Plugin.GetUsersForGroup, hc, hg, hflag,
          plugin.Plugin.getUsersForGroupUsingGroupMembers, hgg, hmem, hloop]

/-- Witness for C2 amended: the all-success traversal over the two
member ids, and the aborted traversal when the second member lookup
fails. -/
theorem c2_membership_traversal_witness :
    (fixtures.traversalPlugin.GetUsersForGroup "g1").1 =
      .ok { users := some (fixtures.kGroup.members.map
        (fun m => plugin.projUser (fixtures.memberUser m.value))) } ∧
    (fixtures.traversalPlugin.GetUsersForGroup "g1").2 =
      .getGroupCall "g1" "" :: fixtures.kGroup.members.map
        (fun m => plugin.ClientCall.getUserCall m.value) ∧
    (fixtures.failingTraversalPlugin.GetUsersForGroup "g1").1 =
      .fail (.wrap .errGetUsersForGroup
        (.wrap .errGetUsersForGroup (.otherError "boom"))) := by
  have h1 := c2_membership_traversal fixtures.traversalPlugin
    fixtures.membersClient "g1" fixtures.memberUser rfl (by decide) rfl
  have h2 := c2_membership_traversal fixtures.failingTraversalPlugin
    fixtures.failingSecondClient "g1" fixtures.memberUser rfl (by decide) rfl
  have hok := (h1.2 fixtures.kGroup rfl).1 (by intro m hm; rfl)
  have hbad := (h2.2 fixtures.kGroup rfl).2 [{ value := "u1" }]
    { value := "u2" } [] (.otherError "boom") rfl
    (by intro m hm; simp at hm; subst hm; rfl) rfl
  exact ⟨hok.1, hok.2, hbad.1⟩
